import Mathlib

/-!
Verification development for the stripe-payments-service repository.

The definitions below are a shallow embedding of the service's core logic:
the in-memory cache (src/cache.js), the tenant attribution and query
filtering of `GET /api/payouts`, the single-payout retrieval of
`GET /api/payouts/:id`, and the transaction resolution of
`GET /api/payouts/:id/transactions` (all from the current revision of
src/index.js, the second draft in the file). JavaScript values that may be
absent or non-strings are modelled as `Option`; JavaScript truthiness of
strings ("" is falsy) and of numbers (0 is falsy) is made explicit at each
use site. Machine time (`Date.now()`) is passed in as an explicit `now`
parameter, and every Stripe network call is modelled as an oracle supplied
to the operation: `.ok v` is a settled response, `.err e` is a rejected
promise carrying the JavaScript error object's observable fields.
-/

namespace StripeService

/-- Characters of `needle` appear at the head of `hay` (used to embed
JavaScript `String.prototype.includes`). -/
def charsStartWith : List Char → List Char → Bool
  | _, [] => true
  | [], _ :: _ => false
  | h :: hs, n :: ns => h == n && charsStartWith hs ns

/-- Characters of `needle` appear contiguously somewhere in `hay`. -/
def charsContain : List Char → List Char → Bool
  | [], needle => needle.isEmpty
  | h :: t, needle => charsStartWith (h :: t) needle || charsContain t needle

/-- Embeds JavaScript `hay.includes(needle)` for strings. -/
def strIncludes (hay needle : String) : Bool :=
  charsContain hay.data needle.data

/-- ASCII lowering of one character, embedding what
`String.prototype.toLowerCase` does on the ASCII range the service's
tenant identifiers and error messages live in. -/
def lowerChar (c : Char) : Char :=
  if 'A' ≤ c && c ≤ 'Z' then Char.ofNat (c.toNat + 32) else c

/-- Embeds JavaScript `s.toLowerCase()` (ASCII range). -/
def strToLower (s : String) : String := ⟨s.data.map lowerChar⟩

/-- Embeds JavaScript truthiness of an optional string value:
`undefined`/`null` and the empty string are falsy. -/
def jsTruthyS (v : Option String) : Bool :=
  match v with
  | some s => s != ""
  | none => false

/-- Embeds the JavaScript `a || b` idiom on optional strings
(the empty string falls through to `b`). -/
def jsOrStr (a b : Option String) : Option String :=
  match a with
  | some s => if s == "" then b else some s
  | none => b

/-- Skips leading whitespace, as `Number.parseInt` does. -/
def skipWs : List Char → List Char
  | c :: cs => if c.isWhitespace then skipWs cs else c :: cs
  | [] => []

/-- Embeds JavaScript `s.trim()`: leading and trailing whitespace removed. -/
def strTrim (s : String) : String :=
  ⟨(skipWs (skipWs s.data).reverse).reverse⟩

/-- Accumulates leading decimal digits; `none` when the first character is
not a digit (the NaN case of `Number.parseInt`). -/
def parseDigits : List Char → Option Nat → Option Nat
  | [], acc => acc
  | c :: cs, acc =>
    if c.isDigit then parseDigits cs (some ((acc.getD 0) * 10 + (c.toNat - 48)))
    else acc

/-- Embeds `Number.parseInt(s, 10)`: leading whitespace is skipped, an
optional sign is read, then leading digits; `none` stands for NaN. -/
def jsParseInt (s : String) : Option Int :=
  match skipWs s.data with
  | '-' :: cs => (parseDigits cs none).map (fun n => -(n : Int))
  | '+' :: cs => (parseDigits cs none).map (fun n => (n : Int))
  | cs => (parseDigits cs none).map (fun n => (n : Int))

/-- Embeds `normalizeTenant` (src/index.js lines 441-448): non-strings map
to null, the value is trimmed, an empty trim maps to null, otherwise the
trimmed value is lower-cased. -/
def normalizeTenant (value : Option String) : Option String :=
  match value with
  | none => none
  | some s =>
    let trimmed := strTrim s
    if trimmed == "" then none else some (strToLower trimmed)

/-- Embeds `parseLimit` (src/index.js lines 432-439). The source applies
`Number.parseInt` to the raw query string; the model receives the parsed
integer, `none` standing for an absent or non-numeric (NaN) value, and
clamps it to [1, 100] with fallback 100. -/
def parseLimit (value : Option Int) : Int :=
  match value with
  | none => 100
  | some parsed => min (max parsed 1) 100

/-- Embeds `parseOffset` (src/index.js lines 450-457): absent/NaN or
negative values map to 0. -/
def parseOffset (value : Option Int) : Int :=
  match value with
  | none => 0
  | some parsed => if parsed < 0 then 0 else parsed

/-- Escapes one character the way `JSON.stringify` escapes it inside a
string literal (quote and backslash; the model covers values without
control characters). -/
def escapeJsonChar (c : Char) : String :=
  if c = '"' then "\\\"" else if c = '\\' then "\\\\" else String.singleton c

/-- Serializes a string as a JSON string literal. -/
def jsonString (s : String) : String :=
  "\"" ++ String.join (s.data.map escapeJsonChar) ++ "\""

/-- Embeds `JSON.stringify(params)` for a query-parameter object.
JavaScript serializes own enumerable keys in insertion order (for keys
that are not array indices), so the object is modelled as the ordered
list of its key/value pairs; the model covers parameter names such as
`limit` or `offset` that are not integer-like. -/
def stringifyParams (params : List (String × String)) : String :=
  "\x7b" ++
    String.intercalate ","
      (params.map (fun kv => jsonString kv.1 ++ ":" ++ jsonString kv.2)) ++
  "\x7d"

/-- Embeds `buildCacheKey` (src/index.js lines 496-497):
`[tenantId, path, JSON.stringify(params || {})].join(':')`. -/
def buildCacheKey (tenantId path : String) (params : List (String × String)) : String :=
  String.intercalate ":" [tenantId, path, stringifyParams params]

/-- First value stored under key `k`, embedding object property lookup on
the query-parameter object. -/
def lookupParam (k : String) : List (String × String) → Option String
  | [] => none
  | (k', v) :: rest => if k' == k then some v else lookupParam k rest

/-- One cache record as stored by `InMemoryCache` (src/cache.js):
`expiresAt` is `null` (here `none`) for a non-expiring entry. -/
structure CacheEntry (α : Type) where
  value : α
  expiresAt : Option Int
deriving DecidableEq

/-- First entry stored under `key`, embedding `Map.prototype.get`. -/
def lookupEntry {α : Type} (store : List (String × CacheEntry α)) (key : String) :
    Option (CacheEntry α) :=
  match store with
  | [] => none
  | (k, e) :: rest => if k == key then some e else lookupEntry rest key

/-- Embeds `Map.prototype.set`: replaces the entry under `key` when present,
appends it otherwise. -/
def setEntry {α : Type} :
    List (String × CacheEntry α) → String → CacheEntry α → List (String × CacheEntry α)
  | [], key, e => [(key, e)]
  | (k, old) :: rest, key, e =>
    if k == key then (key, e) :: rest else (k, old) :: setEntry rest key e

/-- Embeds the `InMemoryCache` class of src/cache.js: a `Map` from keys to
records `\x7b value, expiresAt \x7d`. -/
structure InMemoryCache (α : Type) where
  store : List (String × CacheEntry α)
deriving DecidableEq

/-- Embeds `InMemoryCache.get` (src/cache.js): a missing key yields null;
an entry whose `expiresAt` is truthy (non-null and non-zero) and strictly
in the past is deleted and yields null (lazy eviction); otherwise the
stored value is returned. The current time is the explicit `now`. -/
def InMemoryCache.get {α : Type} (c : InMemoryCache α) (key : String) (now : Int) :
    Option α × InMemoryCache α :=
  match lookupEntry c.store key with
  | none => (none, c)
  | some record =>
    match record.expiresAt with
    | some expiresAt =>
      if expiresAt != 0 && expiresAt < now then
        (none, ⟨c.store.filter (fun kv => kv.1 != key)⟩)
      else (some record.value, c)
    | none => (some record.value, c)

/-- Embeds `InMemoryCache.set` (src/cache.js): a truthy `ttlSeconds`
(present and non-zero) stores `expiresAt = now + ttlSeconds * 1000`,
otherwise `expiresAt = null` (a non-expiring entry). -/
def InMemoryCache.set {α : Type} (c : InMemoryCache α) (key : String) (value : α)
    (ttlSeconds : Option Int) (now : Int) : InMemoryCache α :=
  let expiresAt : Option Int :=
    match ttlSeconds with
    | some ttl => if ttl != 0 then some (now + ttl * 1000) else none
    | none => none
  ⟨setEntry c.store key ⟨value, expiresAt⟩⟩

/-- Embeds `InMemoryCache.delete` (src/cache.js). -/
def InMemoryCache.del {α : Type} (c : InMemoryCache α) (key : String) : InMemoryCache α :=
  ⟨c.store.filter (fun kv => kv.1 != key)⟩

/-- The empty cache (`new InMemoryCache()`). -/
def InMemoryCache.empty {α : Type} : InMemoryCache α := ⟨[]⟩

/-- Metadata of a Stripe payout as the service reads it: the two tenant
attribution key spellings and the three transaction-count key spellings,
each possibly absent. -/
structure PayoutMetadata where
  tenantId : Option String
  tenant : Option String
  transaction_count : Option String
  transactionCount : Option String
  transactions : Option String
deriving DecidableEq

/-- A Stripe payout record with the fields the service observes.
`ptype` embeds the upstream field named `type`. -/
structure Payout where
  id : String
  description : Option String
  amount : Int
  currency : String
  status : String
  ptype : String
  automatic : Bool
  created : Int
  arrival_date : Option Int
  metadata : PayoutMetadata
deriving DecidableEq

/-- Embeds the inline metadata-tenant expression used throughout
src/index.js (for example lines 646-648 and 838-841):
`normalizeTenant(payout.metadata?.tenantId) || normalizeTenant(payout.metadata?.tenant)`.
`normalizeTenant` never returns an empty string, so the JavaScript `||`
is exactly the `Option` alternative. -/
def attributedTenant (payout : Payout) : Option String :=
  match normalizeTenant payout.metadata.tenantId with
  | some t => some t
  | none => normalizeTenant payout.metadata.tenant

/-- A payout as shaped for the response by `shapePayoutForResponse`
(src/index.js lines 499-513): the record is spread unchanged and a
derived `transaction_count` field is added. -/
structure ShapedPayout where
  payout : Payout
  transaction_count : Int
deriving DecidableEq

/-- Embeds `shapePayoutForResponse` (src/index.js lines 499-513): the
first truthy metadata value among `transaction_count`, `transactionCount`
and `transactions` is parsed with `Number.parseInt`, NaN falling back to 0
through `|| 0`; when all are absent the count is 0. -/
def shapePayoutForResponse (payout : Payout) : ShapedPayout :=
  let transactionCount :=
    jsOrStr payout.metadata.transaction_count
      (jsOrStr payout.metadata.transactionCount payout.metadata.transactions)
  { payout := payout,
    transaction_count :=
      match transactionCount with
      | some s => (jsParseInt s).getD 0
      | none => 0 }

/-- Observable fields of a JavaScript error object as the handlers read
them: `code`, `message`, `cause.name`, `cause.code`, `statusCode`. -/
structure JsError where
  code : Option String
  message : String
  causeName : Option String
  causeCode : Option String
  statusCode : Option Int
deriving DecidableEq

/-- Outcome of one awaited Stripe call (after `withStripeTimeout`):
either a settled value or a rejection carrying the error object. -/
inductive UpstreamResult (α : Type) where
  | ok (value : α)
  | err (e : JsError)
deriving DecidableEq

/-- Embeds the `isTimeoutError` classification of the payout-listing
catch block (src/index.js lines 709-722). -/
def isTimeoutError (error : JsError) : Bool :=
  let causeName := error.causeName.getD ""
  let causeCode := error.causeCode.getD ""
  let code := error.code.getD ""
  let normalizedMessage := strToLower error.message
  code == "ETIMEDOUT" || code == "ECONNRESET" || code == "FETCH_FAILED" ||
  code == "STRIPE_TIMEOUT" || causeCode == "UND_ERR_HEADERS_TIMEOUT" ||
  causeName == "HeadersTimeoutError" ||
  strIncludes normalizedMessage "headers timeout" ||
  strIncludes normalizedMessage "fetch failed"

/-- Configuration the core consumes (src/config.js): the cache TTL and
the `ALLOW_UNATTRIBUTED_PAYOUTS` policy, already validated. -/
structure ServiceConfig where
  cacheTtlSeconds : Int
  allowUnattributedPayouts : Bool
deriving DecidableEq

/-- Parameters the listing handler forwards to `stripe.payouts.list`
(src/index.js lines 598-624). -/
structure PayoutListParams where
  limit : Int
  starting_after : Option String
  ending_before : Option String
  status : Option String
  created_gte : Option Int
  created_lte : Option Int
deriving DecidableEq

/-- One upstream page of payouts, as `stripe.payouts.list` resolves it. -/
structure PayoutsPage where
  data : List Payout
  has_more : Bool
deriving DecidableEq

/-- The parsed query of `GET /api/payouts`. Numeric fields carry the
already-parsed integer (`none` for absent or NaN), date fields carry the
unix timestamp produced by `toUnixTimestamp` (`none` for absent or
invalid dates, which the source drops silently). -/
structure ListQuery where
  tenantId : Option String
  refresh : Bool
  limit : Option Int
  offset : Option Int
  starting_after : Option String
  ending_before : Option String
  search : Option String
  status : Option String
  qtype : Option String
  from_date : Option Int
  to_date : Option Int
deriving DecidableEq

/-- The payload cached and returned by the listing handler
(src/index.js lines 684-689). -/
structure PayoutsPayload where
  success : Bool
  data : List ShapedPayout
  total_count : Int
  has_more : Bool
deriving DecidableEq

/-- The JSON body produced by the listing handler. Boolean fields absent
from a given `res.json` call are `false` here and an absent `error` field
is `none`, matching how callers observe the JSON. -/
structure ListPayoutsResponse where
  success : Bool
  data : List ShapedPayout
  total_count : Int
  has_more : Bool
  cached : Bool
  stale : Bool
  error : Option String
deriving DecidableEq

/-- Embeds `req.query.tenantId || tenantIdHeader` (src/index.js line 570). -/
def effectiveTenantFilter (tenantIdHeader : String) (q : ListQuery) : String :=
  match q.tenantId with
  | some s => if s == "" then tenantIdHeader else s
  | none => tenantIdHeader

/-- Embeds the construction of `listParams` (src/index.js lines 598-624):
with a cursor the page size is `limit`, otherwise `min(limit + offset, 100)`,
both capped at 100; cursor, status and truthy created bounds are forwarded. -/
def buildListParams (q : ListQuery) : PayoutListParams :=
  let limit := parseLimit q.limit
  let offset := parseOffset q.offset
  let hasCursor := jsTruthyS q.starting_after || jsTruthyS q.ending_before
  { limit := min (if hasCursor then limit else min (limit + offset) 100) 100,
    starting_after := if jsTruthyS q.starting_after then q.starting_after else none,
    ending_before := if jsTruthyS q.ending_before then q.ending_before else none,
    status := if jsTruthyS q.status then q.status else none,
    created_gte :=
      match q.from_date with
      | some d => if d != 0 then some d else none
      | none => none,
    created_lte :=
      match q.to_date with
      | some d => if d != 0 then some d else none
      | none => none }

/-- Embeds the tenant-attribution guard of the listing filter
(src/index.js lines 645-657): with a truthy normalized tenant filter, an
attributed record must match it and an unattributed record passes only
under the `allowUnattributedPayouts` policy; with no filter the guard is
skipped entirely. -/
def tenantGuard (normalizedTenantFilter : Option String)
    (allowUnattributedPayouts : Bool) (payout : Payout) : Bool :=
  match normalizedTenantFilter with
  | none => true
  | some tf =>
    match attributedTenant payout with
    | some metadataTenant => metadataTenant == tf
    | none => allowUnattributedPayouts

/-- Embeds the haystack of the search filter (src/index.js lines 664-672):
truthy fields among id, description and the two tenant metadata keys,
joined by spaces and lower-cased. -/
def haystackOf (payout : Payout) : String :=
  (String.intercalate " "
      (([some payout.id, payout.description,
         payout.metadata.tenantId, payout.metadata.tenant].filterMap id).filter
        (fun s => s != "")))

/-- Embeds the body of the `data.filter` lambda (src/index.js lines
644-680): tenant guard, then type equality, then case-insensitive
substring search; `search` arrives already lower-cased. -/
def payoutMatchesFilters (normalizedTenantFilter : Option String)
    (allowUnattributedPayouts : Bool) (qtype : Option String)
    (search : Option String) (payout : Payout) : Bool :=
  if !tenantGuard normalizedTenantFilter allowUnattributedPayouts payout then false
  else if (match qtype with
           | some t => t != "" && payout.ptype != t
           | none => false) then false
  else
    match search with
    | some s => if s != "" then strIncludes (haystackOf payout) s else true
    | none => true

/-- Embeds the in-memory paging and filtering of a fetched page
(src/index.js lines 638-680): without a cursor a positive offset drops
that many leading records, then the filter lambda is applied. -/
def freshData (normalizedTenantFilter : Option String)
    (allowUnattributedPayouts : Bool) (q : ListQuery) (page : PayoutsPage) :
    List Payout :=
  let offset := parseOffset q.offset
  let hasCursor := jsTruthyS q.starting_after || jsTruthyS q.ending_before
  let data1 := if !hasCursor && offset > 0 then page.data.drop offset.toNat else page.data
  data1.filter
    (payoutMatchesFilters normalizedTenantFilter allowUnattributedPayouts
      q.qtype (q.search.map strToLower))

/-- The empty degraded payload returned on an upstream failure with no
cached payload in hand (src/index.js lines 740-748 and 758-766). -/
def emptyDegradedResponse (reason : String) : ListPayoutsResponse :=
  { success := true, data := [], total_count := 0, has_more := false,
    cached := false, stale := true, error := some reason }

/-- A cached payload re-served as a labeled stale fallback
(src/index.js lines 728-733 and 752-757). -/
def staleCachedResponse (payload : PayoutsPayload) (reason : String) :
    ListPayoutsResponse :=
  { success := payload.success, data := payload.data,
    total_count := payload.total_count, has_more := payload.has_more,
    cached := true, stale := true, error := some reason }

/-- Embeds the catch block of the listing handler (src/index.js lines
696-777): a timeout-classified error re-serves the cached payload when
one is in hand and otherwise answers the empty `stripe_timeout` payload;
any other error does the same with reason `stripe_error`. The handler
always responds with `res.json` here — it never forwards the error. -/
def catchResponse (cachedPayload : Option PayoutsPayload) (e : JsError) :
    ListPayoutsResponse :=
  if isTimeoutError e then
    match cachedPayload with
    | some p => staleCachedResponse p "stripe_timeout"
    | none => emptyDegradedResponse "stripe_timeout"
  else
    match cachedPayload with
    | some p => staleCachedResponse p "stripe_error"
    | none => emptyDegradedResponse "stripe_error"

/-- Embeds `refresh ? null : cache.get(queryKey)` (src/index.js line 578):
with `refresh` the cache is not read at all (so no lazy eviction occurs). -/
def cacheLookup (q : ListQuery) (c : InMemoryCache PayoutsPayload)
    (key : String) (now : Int) : Option PayoutsPayload × InMemoryCache PayoutsPayload :=
  if q.refresh then (none, c) else c.get key now

/-- Embeds the `GET /api/payouts` handler (src/index.js lines 568-779).
`rawParams` is the raw `req.query` object (ordered key/value pairs) used
for the cache key; `q` is its parsed reading used by the algorithm;
`upstream` is the oracle for `stripe.payouts.list` under
`withStripeTimeout`. A cache hit is re-served with `cached=true` before
any upstream call; after the early return the `cachedPayload` variable is
`null` on every path that reaches the try block, which is why the catch
receives `none`. Returns the JSON body and the cache after the request. -/
def listPayouts (cfg : ServiceConfig) (tenantIdHeader : String) (q : ListQuery)
    (rawParams : List (String × String)) (c : InMemoryCache PayoutsPayload)
    (now : Int) (upstream : PayoutListParams → UpstreamResult PayoutsPage) :
    ListPayoutsResponse × InMemoryCache PayoutsPayload :=
  let normalizedTenantFilter := normalizeTenant (some (effectiveTenantFilter tenantIdHeader q))
  let queryKey := buildCacheKey tenantIdHeader "/api/payouts" rawParams
  match cacheLookup q c queryKey now with
  | (some payload, c1) =>
    ({ success := payload.success, data := payload.data,
       total_count := payload.total_count, has_more := payload.has_more,
       cached := true, stale := false, error := none }, c1)
  | (none, c1) =>
    match upstream (buildListParams q) with
    | .ok payouts =>
      let shaped :=
        ((freshData normalizedTenantFilter cfg.allowUnattributedPayouts q payouts).take
            (parseLimit q.limit).toNat).map shapePayoutForResponse
      let payload : PayoutsPayload :=
        { success := true, data := shaped, total_count := shaped.length,
          has_more := payouts.has_more }
      ({ success := true, data := shaped, total_count := shaped.length,
         has_more := payouts.has_more, cached := false, stale := false,
         error := none },
       c1.set queryKey payload (some cfg.cacheTtlSeconds) now)
    | .err e => (catchResponse none e, c1)

/-- Result of the `GET /api/payouts/:id` handler as the caller observes
it: the payout body, a 404, or an error forwarded to the boundary
error middleware via `next(error)`. -/
inductive PayoutDetailResult where
  | json (payout : Payout)
  | notFound (message : String)
  | nextError (e : JsError)
deriving DecidableEq

/-- Embeds the `GET /api/payouts/:id` handler (src/index.js lines
781-810): retrieve the payout, then with a truthy normalized requesting
tenant a mismatched attributed tenant yields 404, and an unattributed
payout yields 404 unless `allowUnattributedPayouts`; an upstream 404
maps to 404, any other retrieval error is forwarded. -/
def getPayoutById (cfg : ServiceConfig) (tenantId : String)
    (retrieveResult : UpstreamResult Payout) : PayoutDetailResult :=
  match retrieveResult with
  | .ok payout =>
    match normalizeTenant (some tenantId) with
    | some n =>
      match attributedTenant payout with
      | some payoutTenant =>
        if payoutTenant != n then .notFound "Payout not found for tenant"
        else .json payout
      | none =>
        if !cfg.allowUnattributedPayouts then .notFound "Payout not found for tenant"
        else .json payout
    | none => .json payout
  | .err e =>
    if e.statusCode == some 404 then .notFound "Payout not found"
    else .nextError e

/-- A Stripe balance transaction with the fields the service observes;
`payout` is its payout reference, possibly null. -/
structure BalanceTransaction where
  id : String
  txType : String
  amount : Int
  net : Int
  payout : Option String
  created : Int
deriving DecidableEq

/-- One upstream page of balance transactions. -/
structure TxPage where
  data : List BalanceTransaction
  has_more : Bool
deriving DecidableEq

/-- Parameters of the direct `stripe.balanceTransactions.list` call with a
`payout` filter (src/index.js lines 851-860 and 920-925). -/
structure TxListParams where
  limit : Int
  starting_after : Option String
  ending_before : Option String
deriving DecidableEq

/-- Oracles for the three Stripe calls the transactions handler can make:
retrieving the payout, listing transactions with the direct payout
filter, and listing transactions by a created range (`gte`, `lte`) with a
page limit. -/
structure TxUpstream where
  retrievePayout : UpstreamResult Payout
  listByPayout : TxListParams → UpstreamResult TxPage
  listByDateRange : Int → Int → Int → UpstreamResult TxPage

/-- Result of the `GET /api/payouts/:id/transactions` handler as the
caller observes it. -/
inductive TxRouteResult where
  | json (data : List BalanceTransaction) (has_more : Bool)
  | notFound (message : String)
  | nextError (e : JsError)
deriving DecidableEq

/-- Embeds the manual-filtering classification of the inner catch
(src/index.js lines 1002-1005), which also recognizes the
"cannot filter balance transaction history" message. -/
def isManualFilterErrorInner (e : JsError) : Bool :=
  e.code == some "balance_transactions_manual_filtering_not_allowed" ||
  strIncludes (strToLower e.message) "only be filtered on automatic transfers" ||
  strIncludes (strToLower e.message) "cannot filter balance transaction history"

/-- Embeds the manual-filtering classification of the outer catch
(src/index.js lines 1120-1122), which recognizes only the error code and
the "only be filtered on automatic transfers" message. -/
def isManualFilterErrorOuter (e : JsError) : Bool :=
  e.code == some "balance_transactions_manual_filtering_not_allowed" ||
  strIncludes (strToLower e.message) "only be filtered on automatic transfers"

/-- Embeds the outer catch of the transactions handler (src/index.js
lines 1102-1132): an upstream 404 maps to 404, a manual-filtering error
maps to an empty success body, anything else is forwarded via
`next(error)`. -/
def txOuterCatch (e : JsError) : TxRouteResult :=
  if e.statusCode == some 404 then .notFound "Payout or transactions not found"
  else if isManualFilterErrorOuter e then .json [] false
  else .nextError e

/-- Embeds the inner catch of the strategy block (src/index.js lines
998-1058): a manual-filtering rejection of a payout that was classified
automatic triggers the cross-fallback date-range scan over
[created - 30 days, created + 1 day] (its own failure degrades to an
empty result); a manual-filtering rejection on the manual path answers an
empty success body directly; everything else is re-thrown to the outer
catch. -/
def txInnerCatch (payoutId : String) (payout : Payout) ( isManualPayout : Bool)
    (u : TxUpstream) (e : JsError) : TxRouteResult :=
  if isManualFilterErrorInner e && ! isManualPayout then
    match u.listByDateRange (payout.created - 86400 * 30) (payout.created + 86400 * 1) 100 with
    | .ok allTransactions =>
      .json (allTransactions.data.filter (fun tx => tx.payout == some payoutId)) false
    | .err _ => .json [] false
  else if isManualFilterErrorInner e then .json [] false
  else txOuterCatch e

/-- Embeds the `listParams` of the transactions handler (src/index.js
lines 851-860): `parseLimit(req.query.limit) || 100` and the truthy
cursors. -/
def txDirectParams (qlimit : Option Int) (sa eb : Option String) : TxListParams :=
  { limit := if parseLimit qlimit == 0 then 100 else parseLimit qlimit,
    starting_after := if jsTruthyS sa then sa else none,
    ending_before := if jsTruthyS eb then eb else none }

/-- Embeds the strategy block of the transactions handler (src/index.js
lines 851-1101), entered after the tenant gate passes. A payout is
classified manual when its `type` is `"manual"` or its `automatic` flag
is false. The manual path scans [created - 30 days, created + 1 day]
with page limit 100 and keeps transactions referencing the payout,
always reporting `has_more: false`. The automatic path calls the direct
payout filter; on an empty result with a truthy `created` it widens to a
[created - 7 days, created + 7 days] scan whose own failure is swallowed
(`fallbackError` is only logged) and whose matches, when any, replace the
empty data with `has_more: false`. -/
def txFetchPhase (cfg : ServiceConfig) (payoutId : String) (payout : Payout)
    (qlimit : Option Int) (sa eb : Option String) (u : TxUpstream) : TxRouteResult :=
  let isManualPayout := payout.ptype == "manual" || !payout.automatic
  if isManualPayout then
    match u.listByDateRange (payout.created - 86400 * 30) (payout.created + 86400 * 1) 100 with
    | .ok allTransactions =>
      .json (allTransactions.data.filter (fun tx => tx.payout == some payoutId)) false
    | .err e => txInnerCatch payoutId payout isManualPayout u e
  else
    match u.listByPayout (txDirectParams qlimit sa eb) with
    | .ok transactions =>
      if transactions.data.isEmpty then
        if payout.created != 0 then
          match u.listByDateRange (payout.created - 86400 * 7) (payout.created + 86400 * 7) 100 with
          | .ok fallbackTransactions =>
            let filtered :=
              fallbackTransactions.data.filter (fun tx => tx.payout == some payoutId)
            if filtered.length > 0 then .json filtered false
            else .json transactions.data transactions.has_more
          | .err _ => .json transactions.data transactions.has_more
        else .json transactions.data transactions.has_more
      else .json transactions.data transactions.has_more
    | .err e => txInnerCatch payoutId payout isManualPayout u e

/-- Embeds the `GET /api/payouts/:id/transactions` handler (src/index.js
lines 812-1133): retrieve the payout, run the tenant gate exactly as the
detail handler does (mismatch and disallowed-unattributed both answer
404), then enter the strategy block; retrieval errors go to the outer
catch. -/
def listPayoutTransactions (cfg : ServiceConfig) (tenantId : String)
    (payoutId : String) (qlimit : Option Int) (sa eb : Option String)
    (u : TxUpstream) : TxRouteResult :=
  match u.retrievePayout with
  | .err e => txOuterCatch e
  | .ok payout =>
    match normalizeTenant (some tenantId) with
    | some n =>
      match attributedTenant payout with
      | some payoutTenant =>
        if payoutTenant != n then .notFound "Payout transactions not found"
        else txFetchPhase cfg payoutId payout qlimit sa eb u
      | none =>
        if !cfg.allowUnattributedPayouts then .notFound "Payout transactions not found"
        else txFetchPhase cfg payoutId payout qlimit sa eb u
    | none => txFetchPhase cfg payoutId payout qlimit sa eb u

/-- Embeds the tenant check of `requireInternalHeaders` (src/auth.js,
src/unnamed/part_000 lines 25-30): the request passes when the `X-Tenant`
header value is truthy, that is present and non-empty; a whitespace-only
header is accepted. -/
def tenantHeaderAccepted (tenantId : Option String) : Bool :=
  match tenantId with
  | some s => s != ""
  | none => false

/-- The transactions of `db` created inside the closed interval
[gte, lte]. -/
def windowTxs (db : List BalanceTransaction) (gte lte : Int) : List BalanceTransaction :=
  db.filter (fun tx => decide (gte ≤ tx.created) && decide (tx.created ≤ lte))

/-- An honest date-range oracle over a fixed transaction database: the
transactions created inside [gte, lte], first `limit` of them, with
`has_more` set when the window holds more. Used to instantiate
`listByDateRange` when reasoning about what a scan can see. -/
def rangePage (db : List BalanceTransaction) (gte lte limit : Int) : TxPage :=
  { data := (windowTxs db gte lte).take limit.toNat,
    has_more := decide (limit.toNat < (windowTxs db gte lte).length) }

/-! ### Helper lemmas shared across the development -/

theorem shapePayoutForResponse_payout (p : Payout) :
    (shapePayoutForResponse p).payout = p := rfl

theorem tenantGuard_eq_false {n t : String} (allow : Bool) (p : Payout)
    (hp : attributedTenant p = some t) (hne : t ≠ n) :
    tenantGuard (some n) allow p = false := by
  simp [tenantGuard, hp, hne]

theorem payoutMatchesFilters_eq_false (ntf : Option String) (allow : Bool)
    (qt s : Option String) (p : Payout) (h : tenantGuard ntf allow p = false) :
    payoutMatchesFilters ntf allow qt s p = false := by
  simp [payoutMatchesFilters, h]

theorem catchResponse_none_data (e : JsError) : (catchResponse none e).data = [] := by
  unfold catchResponse
  by_cases h : isTimeoutError e = true <;> simp [h, emptyDegradedResponse]

/-! ### Concrete fixtures used by witnesses and counterexamples -/

/-- A payout attributed to tenant `acme` through its `tenantId` metadata. -/
def acmePayout : Payout :=
  { id := "po_1", description := none, amount := 1000, currency := "usd",
    status := "paid", ptype := "bank_account", automatic := true,
    created := 1728798752, arrival_date := none,
    metadata := { tenantId := some "acme", tenant := none,
                  transaction_count := none, transactionCount := none,
                  transactions := none } }

/-- The default configuration (60 second TTL, unattributed payouts allowed). -/
def defaultConfig : ServiceConfig :=
  { cacheTtlSeconds := 60, allowUnattributedPayouts := true }

/-- A listing query with no parameters set and no tenant override. -/
def noOverrideQuery : ListQuery :=
  { tenantId := none, refresh := false, limit := none, offset := none,
    starting_after := none, ending_before := none, search := none,
    status := none, qtype := none, from_date := none, to_date := none }

/-- The same query with the `tenantId` filter override set to `acme`. -/
def overrideQuery : ListQuery :=
  { noOverrideQuery with tenantId := some "acme" }

/-- An upstream oracle whose payout page holds exactly `acmePayout`. -/
def singlePayoutUpstream : PayoutListParams → UpstreamResult PayoutsPage :=
  fun _ => .ok { data := [acmePayout], has_more := false }

/-! ### C1 — tenant isolation of listing -/

/-- C1, counterexample to the claim as stated: the payout `acmePayout` is
attributed to tenant `acme`, the request is made by tenant `globex`
(`globex ≠ acme`), yet because the request's query sets the documented
`tenantId` filter override to `acme` (src/index.js line 570:
`req.query.tenantId || tenantIdHeader`), the returned `data` array does
contain the foreign payout. -/
theorem C1_override_counterexample :
    attributedTenant acmePayout = some "acme" ∧ ("globex" : String) ≠ "acme" ∧
    acmePayout ∈
      (listPayouts defaultConfig "globex" overrideQuery [] InMemoryCache.empty 0
          singlePayoutUpstream).1.data.map (fun sp => sp.payout) := by
  refine ⟨rfl, by decide, ?_⟩
  decide

/-- C1 (amended): tenant isolation of listing holds for every request
that does not use the `tenantId` query override — for every payout `p`
whose metadata yields attributed tenant `t` and every request whose
requesting tenant normalizes to `n ≠ t`, with no override and with no
cached payload under the request's cache key, the `data` array returned
by `listPayouts` never contains `p`, whatever the upstream returns. -/
theorem C1_isolation_without_override
    (cfg : ServiceConfig) (tenantIdHeader : String) (q : ListQuery)
    (rawParams : List (String × String)) (c : InMemoryCache PayoutsPayload)
    (now : Int) (upstream : PayoutListParams → UpstreamResult PayoutsPage)
    (p : Payout) (t n : String)
    (hq : q.tenantId = none)
    (hp : attributedTenant p = some t)
    (hn : normalizeTenant (some tenantIdHeader) = some n)
    (hne : t ≠ n)
    (hmiss : (cacheLookup q c (buildCacheKey tenantIdHeader "/api/payouts" rawParams) now).1
        = none) :
    p ∉ (listPayouts cfg tenantIdHeader q rawParams c now upstream).1.data.map
        (fun sp => sp.payout) := by
  intro hmem
  have hfilter : normalizeTenant (some (effectiveTenantFilter tenantIdHeader q)) = some n := by
    simp [effectiveTenantFilter, hq, hn]
  rcases hsplit : cacheLookup q c (buildCacheKey tenantIdHeader "/api/payouts" rawParams) now
    with ⟨o, c2⟩
  rw [hsplit] at hmiss
  simp only at hmiss
  subst hmiss
  cases hup : upstream (buildListParams q) with
  | ok payouts =>
    simp only [listPayouts, hsplit, hup, List.map_map] at hmem
    have hmem' : p ∈ (freshData
        (normalizeTenant (some (effectiveTenantFilter tenantIdHeader q)))
        cfg.allowUnattributedPayouts q payouts).take (parseLimit q.limit).toNat := by
      simpa [Function.comp_def, shapePayoutForResponse_payout] using hmem
    have hmem'' := List.mem_of_mem_take hmem'
    rw [freshData] at hmem''
    have hpred := (List.mem_filter.mp hmem'').2
    rw [hfilter] at hpred
    rw [payoutMatchesFilters_eq_false _ _ _ _ _
      (tenantGuard_eq_false _ _ hp hne)] at hpred
    exact Bool.false_ne_true hpred
  | err e =>
    simp only [listPayouts, hsplit, hup, catchResponse_none_data] at hmem
    simp at hmem

/-- C1, witness: the amended isolation theorem applied at a concrete
request — tenant `globex`, no override, empty cache — never lists the
`acme` payout. -/
theorem C1_isolation_without_override_witness :
    acmePayout ∉
      (listPayouts defaultConfig "globex" noOverrideQuery [] InMemoryCache.empty 0
          singlePayoutUpstream).1.data.map (fun sp => sp.payout) :=
  C1_isolation_without_override defaultConfig "globex" noOverrideQuery []
    InMemoryCache.empty 0 singlePayoutUpstream acmePayout "acme" "globex"
    rfl rfl rfl (by decide) rfl

/-! ### C2 — stale-cache timeout fallback -/

/-- A timeout rejection as `withStripeTimeout` produces it
(src/index.js lines 466-468). -/
def timeoutErr : JsError :=
  { code := some "STRIPE_TIMEOUT", message := "Stripe request timed out",
    causeName := none, causeCode := none, statusCode := none }

/-- An upstream oracle whose every call times out. -/
def timeoutUpstream : PayoutListParams → UpstreamResult PayoutsPage :=
  fun _ => .err timeoutErr

/-- C2: the claimed behavior — an `UpstreamTimeout` with a (possibly
expired) cached payload under the key returns that payload annotated
`cached=true, stale=true` — never happens. The handler binds
`cachedPayload = refresh ? null : cache.get(queryKey)` and returns early
on any hit, so on every path that reaches the upstream call (and hence
the catch block) `cachedPayload` is null: the stale-cache branch at
src/index.js lines 724-734 is unreachable. First conjunct: every stale
response of `listPayouts` has empty `data` and `cached=false`. Second
conjunct, the failing scenario: a successful query populates the cache
(the entry is present and non-empty), yet the identical query after TTL
expiry whose upstream call times out returns the empty degraded payload,
not the cached one. -/
theorem C2_stale_cache_fallback_never_fires :
    (∀ (cfg : ServiceConfig) (tenantIdHeader : String) (q : ListQuery)
        (rawParams : List (String × String)) (c : InMemoryCache PayoutsPayload)
        (now : Int) (upstream : PayoutListParams → UpstreamResult PayoutsPage),
      (listPayouts cfg tenantIdHeader q rawParams c now upstream).1.stale = true →
        (listPayouts cfg tenantIdHeader q rawParams c now upstream).1.data = [] ∧
        (listPayouts cfg tenantIdHeader q rawParams c now upstream).1.cached = false) ∧
    ((lookupEntry (listPayouts defaultConfig "acme" noOverrideQuery []
          InMemoryCache.empty 0 singlePayoutUpstream).2.store
        (buildCacheKey "acme" "/api/payouts" [])).isSome = true ∧
      (listPayouts defaultConfig "acme" noOverrideQuery []
          InMemoryCache.empty 0 singlePayoutUpstream).1.data ≠ [] ∧
      (listPayouts defaultConfig "acme" noOverrideQuery []
          (listPayouts defaultConfig "acme" noOverrideQuery []
            InMemoryCache.empty 0 singlePayoutUpstream).2 120000
          timeoutUpstream).1
        = emptyDegradedResponse "stripe_timeout") := by
  constructor
  · intro cfg tenantIdHeader q rawParams c now upstream hstale
    rcases hsplit : cacheLookup q c (buildCacheKey tenantIdHeader "/api/payouts" rawParams) now
      with ⟨o, c2⟩
    cases o with
    | some payload =>
      simp only [listPayouts, hsplit] at hstale
      simp at hstale
    | none =>
      cases hup : upstream (buildListParams q) with
      | ok payouts =>
        simp only [listPayouts, hsplit, hup] at hstale
        simp at hstale
      | err e =>
        simp only [listPayouts, hsplit, hup]
        refine ⟨catchResponse_none_data e, ?_⟩
        unfold catchResponse
        by_cases h : isTimeoutError e = true <;> simp [h, emptyDegradedResponse]
  · refine ⟨by decide, by decide, by decide⟩

/-- C2, witness: at a concrete timed-out request over an empty cache, the
first conjunct applies — the degraded response carries no data. -/
theorem C2_stale_cache_fallback_never_fires_witness :
    (listPayouts defaultConfig "acme" noOverrideQuery [] InMemoryCache.empty 0
        timeoutUpstream).1.data = [] :=
  (C2_stale_cache_fallback_never_fires.1 defaultConfig "acme" noOverrideQuery []
    InMemoryCache.empty 0 timeoutUpstream (by decide)).1

/-! ### C3 — listing never surfaces a hard error -/

/-- C3: for every upstream failure during `listPayouts` — timeout or any
other error — with no cached payload available under the query's key, the
operation answers the empty success payload
`success=true, data=[], total_count=0, has_more=false, stale=true` with a
degraded reason (`stripe_timeout` for timeout-classified errors,
`stripe_error` otherwise, in the response's `error` field). The handler's
catch block always responds with `res.json` and never calls
`next(error)`, which the embedding reflects by being total into the
response type: no error is ever propagated to the caller. -/
theorem C3_listing_never_hard_errors
    (cfg : ServiceConfig) (tenantIdHeader : String) (q : ListQuery)
    (rawParams : List (String × String)) (c : InMemoryCache PayoutsPayload)
    (now : Int) (upstream : PayoutListParams → UpstreamResult PayoutsPage)
    (e : JsError)
    (hmiss : (cacheLookup q c (buildCacheKey tenantIdHeader "/api/payouts" rawParams) now).1
        = none)
    (hup : upstream (buildListParams q) = .err e) :
    (listPayouts cfg tenantIdHeader q rawParams c now upstream).1
      = emptyDegradedResponse
          (if isTimeoutError e then "stripe_timeout" else "stripe_error") := by
  rcases hsplit : cacheLookup q c (buildCacheKey tenantIdHeader "/api/payouts" rawParams) now
    with ⟨o, c2⟩
  rw [hsplit] at hmiss
  simp only at hmiss
  subst hmiss
  simp only [listPayouts, hsplit, hup]
  unfold catchResponse
  by_cases h : isTimeoutError e = true <;> simp [h]

/-- C3, witness: a first-ever query (empty cache) whose upstream call
times out answers the empty `stripe_timeout` payload. -/
theorem C3_listing_never_hard_errors_witness :
    (listPayouts defaultConfig "acme" noOverrideQuery [] InMemoryCache.empty 0
        timeoutUpstream).1 = emptyDegradedResponse "stripe_timeout" :=
  (C3_listing_never_hard_errors defaultConfig "acme" noOverrideQuery []
    InMemoryCache.empty 0 timeoutUpstream timeoutErr rfl rfl).trans (by decide)

/-! ### C4 — manual-payout transaction resolution -/

theorem windowTxs_take_of_le (db : List BalanceTransaction) (gte lte : Int)
    (h : (windowTxs db gte lte).length ≤ 100) :
    (windowTxs db gte lte).take ((100 : Int)).toNat = windowTxs db gte lte := by
  exact List.take_of_length_le (by simpa using h)

/-- C4: for every payout classified manual through `automatic=false`, when
the tenant gate passes and the creation window
[created - 30 days, created + 1 day] holds at most the 100-transaction
page cap, `listPayoutTransactions` over a database-backed date-range
oracle returns exactly the window's transactions whose payout reference
equals the payout's id — transactions in the window not referencing it
are excluded — with `has_more=false`; the direct-filter oracle is
arbitrary because the manual path never consults it. -/
theorem C4_manual_window_resolution
    (cfg : ServiceConfig) (tenantId : String) (p : Payout)
    (db : List BalanceTransaction)
    (direct : TxListParams → UpstreamResult TxPage)
    (qlimit : Option Int) (sa eb : Option String)
    (hauto : p.automatic = false)
    (hgate : normalizeTenant (some tenantId) = none ∨
      ∃ n, normalizeTenant (some tenantId) = some n ∧ attributedTenant p = some n)
    (hcap : (windowTxs db (p.created - 86400 * 30) (p.created + 86400 * 1)).length ≤ 100) :
    listPayoutTransactions cfg tenantId p.id qlimit sa eb
      { retrievePayout := .ok p, listByPayout := direct,
        listByDateRange := fun gte lte lim => .ok (rangePage db gte lte lim) } =
    .json ((windowTxs db (p.created - 86400 * 30) (p.created + 86400 * 1)).filter
        (fun tx => tx.payout == some p.id)) false := by
  have hmanual : (p.ptype == "manual" || !p.automatic) = true := by
    simp [hauto]
  have hphase : txFetchPhase cfg p.id p qlimit sa eb
      { retrievePayout := .ok p, listByPayout := direct,
        listByDateRange := fun gte lte lim => .ok (rangePage db gte lte lim) } =
      .json ((windowTxs db (p.created - 86400 * 30) (p.created + 86400 * 1)).filter
          (fun tx => tx.payout == some p.id)) false := by
    simp only [txFetchPhase, hmanual, if_true, rangePage]
    rw [windowTxs_take_of_le _ _ _ hcap]
  rcases hgate with hnone | ⟨n, hreq, hattr⟩
  · simp only [listPayoutTransactions, hnone]
    exact hphase
  · simp only [listPayoutTransactions, hreq, hattr, bne_self_eq_false,
      Bool.false_eq_true, if_false]
    exact hphase

/-- A manual payout (automatic=false) attributed to tenant `acme`. -/
def manualPayout : Payout :=
  { id := "po_m", description := none, amount := 5000, currency := "usd",
    status := "paid", ptype := "bank_account", automatic := false,
    created := 1728798752, arrival_date := none,
    metadata := { tenantId := some "acme", tenant := none,
                  transaction_count := none, transactionCount := none,
                  transactions := none } }

/-- Three balance transactions referencing `manualPayout` inside its
30-day back-window, one unrelated transaction in the window, and one
referencing transaction outside the window. -/
def refTx1 : BalanceTransaction :=
  { id := "txn_1", txType := "charge", amount := 100, net := 97,
    payout := some "po_m", created := 1728798752 - 86400 * 2 }

def refTx2 : BalanceTransaction :=
  { id := "txn_2", txType := "charge", amount := 200, net := 194,
    payout := some "po_m", created := 1728798752 - 86400 * 10 }

def refTx3 : BalanceTransaction :=
  { id := "txn_3", txType := "charge", amount := 300, net := 291,
    payout := some "po_m", created := 1728798752 - 86400 * 29 }

def otherTx : BalanceTransaction :=
  { id := "txn_4", txType := "charge", amount := 400, net := 388,
    payout := some "po_other", created := 1728798752 - 86400 * 3 }

def outsideTx : BalanceTransaction :=
  { id := "txn_5", txType := "charge", amount := 500, net := 485,
    payout := some "po_m", created := 1728798752 - 86400 * 40 }

def txDb : List BalanceTransaction :=
  [refTx1, otherTx, refTx2, refTx3, outsideTx]

/-- C4, witness: with three referencing transactions in the 30-day
back-window and others excluded, exactly those three come back. -/
theorem C4_manual_window_resolution_witness :
    listPayoutTransactions defaultConfig "acme" "po_m" none none none
      { retrievePayout := .ok manualPayout,
        listByPayout := fun _ => .err timeoutErr,
        listByDateRange := fun gte lte lim => .ok (rangePage txDb gte lte lim) } =
    .json [refTx1, refTx2, refTx3] false :=
  (C4_manual_window_resolution defaultConfig "acme" manualPayout txDb
    (fun _ => .err timeoutErr) none none none rfl
    (Or.inr ⟨"acme", by decide, by decide⟩) (by decide)).trans (by decide)

/-! ### C5 — tenant mismatch is reported as non-existence -/

/-- C5: for every payout whose attributed tenant differs from the
normalized requesting tenant, both the single-payout retrieval and the
transaction listing answer the 404 not-found outcome, so a foreign
record is indistinguishable from an absent one. -/
theorem C5_tenant_mismatch_is_not_found
    (cfg : ServiceConfig) (tenantId : String) (p : Payout) (t n : String)
    (qlimit : Option Int) (sa eb : Option String)
    (direct : TxListParams → UpstreamResult TxPage)
    (ranged : Int → Int → Int → UpstreamResult TxPage)
    (hp : attributedTenant p = some t)
    (hn : normalizeTenant (some tenantId) = some n)
    (hne : t ≠ n) :
    getPayoutById cfg tenantId (.ok p) = .notFound "Payout not found for tenant" ∧
    listPayoutTransactions cfg tenantId p.id qlimit sa eb
      { retrievePayout := .ok p, listByPayout := direct, listByDateRange := ranged }
      = .notFound "Payout transactions not found" := by
  constructor
  · simp [getPayoutById, hn, hp, hne]
  · simp [listPayoutTransactions, hn, hp, hne]

/-- C5, witness: the payout attributed to `acme` retrieved by tenant
`globex` yields 404 on both the detail and the transactions routes. -/
theorem C5_tenant_mismatch_is_not_found_witness :
    getPayoutById defaultConfig "globex" (.ok acmePayout)
        = .notFound "Payout not found for tenant" ∧
    listPayoutTransactions defaultConfig "globex" "po_1" none none none
      { retrievePayout := .ok acmePayout,
        listByPayout := fun _ => .err timeoutErr,
        listByDateRange := fun _ _ _ => .err timeoutErr }
      = .notFound "Payout transactions not found" :=
  C5_tenant_mismatch_is_not_found defaultConfig "globex" acmePayout "acme" "globex"
    none none none (fun _ => .err timeoutErr) (fun _ _ _ => .err timeoutErr)
    (by decide) (by decide) (by decide)

/-! ### C6 — which upstream failures reach the boundary -/

theorem outerFilterError_eq_false_of_inner (e : JsError)
    (h : isManualFilterErrorInner e = false) :
    isManualFilterErrorOuter e = false := by
  unfold isManualFilterErrorInner at h
  unfold isManualFilterErrorOuter
  simp only [Bool.or_eq_false_iff] at h ⊢
  exact h.1

theorem statusCode_beq_false {e : JsError} (h : e.statusCode ≠ some 404) :
    (e.statusCode == some 404) = false := by
  simpa using h

/-- C6, counterexample to the claim as stated: the payout is automatic,
its direct filter call succeeds with zero transactions, and the
best-effort ±7 day fallback scan fails with an upstream timeout — a
failure that is neither a 404 nor the manual-filtering condition — yet
the operation answers the success body `data=[], has_more=false` instead
of surfacing the error: the fallback's `catch (fallbackError)` only logs
it (src/index.js lines 989-994). -/
theorem C6_swallowed_fallback_counterexample :
    isTimeoutError timeoutErr = true ∧
    timeoutErr.statusCode ≠ some 404 ∧
    isManualFilterErrorInner timeoutErr = false ∧
    listPayoutTransactions defaultConfig "acme" "po_1" none none none
      { retrievePayout := .ok acmePayout,
        listByPayout := fun _ => .ok { data := [], has_more := false },
        listByDateRange := fun _ _ _ => .err timeoutErr }
      = .json [] false := by
  refine ⟨by decide, by decide, by decide, by decide⟩

/-- C6 (amended): failures of the primary upstream calls do propagate —
an error of the payout retrieval, of the manual path's date-range scan,
or of the automatic path's direct filter call that is neither a 404 nor
the manual-filtering condition reaches the boundary as `nextError`
(mapped to `UpstreamError`); only failures of the best-effort fallback
scans (the automatic zero-result widening and the cross-fallback's own
scan) are swallowed into a success response. -/
theorem C6_primary_failures_propagate :
    (∀ (cfg : ServiceConfig) (tenantId payoutId : String) (qlimit : Option Int)
        (sa eb : Option String) (u : TxUpstream) (e : JsError),
      u.retrievePayout = .err e → e.statusCode ≠ some 404 →
      isManualFilterErrorOuter e = false →
      listPayoutTransactions cfg tenantId payoutId qlimit sa eb u = .nextError e) ∧
    (∀ (cfg : ServiceConfig) (payoutId : String) (p : Payout) (qlimit : Option Int)
        (sa eb : Option String) (u : TxUpstream) (e : JsError),
      (p.ptype == "manual" || !p.automatic) = true →
      u.listByDateRange (p.created - 86400 * 30) (p.created + 86400 * 1) 100 = .err e →
      isManualFilterErrorInner e = false → e.statusCode ≠ some 404 →
      txFetchPhase cfg payoutId p qlimit sa eb u = .nextError e) ∧
    (∀ (cfg : ServiceConfig) (payoutId : String) (p : Payout) (qlimit : Option Int)
        (sa eb : Option String) (u : TxUpstream) (e : JsError),
      (p.ptype == "manual" || !p.automatic) = false →
      u.listByPayout (txDirectParams qlimit sa eb) = .err e →
      isManualFilterErrorInner e = false → e.statusCode ≠ some 404 →
      txFetchPhase cfg payoutId p qlimit sa eb u = .nextError e) := by
  refine ⟨?_, ?_, ?_⟩
  · intro cfg tenantId payoutId qlimit sa eb u e hret h404 houter
    simp only [listPayoutTransactions, hret]
    unfold txOuterCatch
    simp [statusCode_beq_false h404, houter]
  · intro cfg payoutId p qlimit sa eb u e hman hrange hinner h404
    have houter := outerFilterError_eq_false_of_inner e hinner
    simp only [txFetchPhase, hman, if_true, hrange]
    unfold txInnerCatch
    simp only [hinner, Bool.false_and, Bool.false_eq_true, if_false]
    unfold txOuterCatch
    simp [statusCode_beq_false h404, houter]
  · intro cfg payoutId p qlimit sa eb u e hman hdirect hinner h404
    have houter := outerFilterError_eq_false_of_inner e hinner
    simp only [txFetchPhase, hman, Bool.false_eq_true, if_false, hdirect]
    unfold txInnerCatch
    simp only [hinner, Bool.false_and, Bool.false_eq_true, if_false]
    unfold txOuterCatch
    simp [statusCode_beq_false h404, houter]

/-- C6, witness: a timed-out payout retrieval propagates to the boundary
as `nextError` rather than degrading into a success body. -/
theorem C6_primary_failures_propagate_witness :
    listPayoutTransactions defaultConfig "acme" "po_1" none none none
      { retrievePayout := .err timeoutErr,
        listByPayout := fun _ => .ok { data := [], has_more := false },
        listByDateRange := fun _ _ _ => .ok { data := [], has_more := false } }
      = .nextError timeoutErr :=
  C6_primary_failures_propagate.1 defaultConfig "acme" "po_1" none none none
    { retrievePayout := .err timeoutErr,
      listByPayout := fun _ => .ok { data := [], has_more := false },
      listByDateRange := fun _ _ _ => .ok { data := [], has_more := false } }
    timeoutErr rfl (by decide) (by decide)

/-! ### C10 — date-range paths silently truncate -/

/-- C10: every payout resolved through a date-range scan reports
`has_more=false`. First conjunct, manual path: whatever page the scan
returns — even a page flagged `has_more=true` by the upstream, such as
the 100-transaction window cap with further matches beyond it — the
response is the referencing subset with `has_more=false`, so truncation
is silent. Second conjunct, cross-fallback path (direct filter rejected
with the manual-filtering condition on a payout classified automatic):
the response always carries `has_more=false` as well, whatever the scan
does. -/
theorem C10_scan_paths_report_has_more_false :
    (∀ (cfg : ServiceConfig) (payoutId : String) (p : Payout) (qlimit : Option Int)
        (sa eb : Option String) (u : TxUpstream) (page : TxPage),
      (p.ptype == "manual" || !p.automatic) = true →
      u.listByDateRange (p.created - 86400 * 30) (p.created + 86400 * 1) 100 = .ok page →
      txFetchPhase cfg payoutId p qlimit sa eb u =
        .json (page.data.filter (fun tx => tx.payout == some payoutId)) false) ∧
    (∀ (cfg : ServiceConfig) (payoutId : String) (p : Payout) (qlimit : Option Int)
        (sa eb : Option String) (u : TxUpstream) (e : JsError),
      (p.ptype == "manual" || !p.automatic) = false →
      u.listByPayout (txDirectParams qlimit sa eb) = .err e →
      isManualFilterErrorInner e = true →
      ∃ d, txFetchPhase cfg payoutId p qlimit sa eb u = .json d false) := by
  constructor
  · intro cfg payoutId p qlimit sa eb u page hman hrange
    simp only [txFetchPhase, hman, if_true, hrange]
  · intro cfg payoutId p qlimit sa eb u e hman hdirect hinner
    simp only [txFetchPhase, hman, Bool.false_eq_true, if_false, hdirect]
    unfold txInnerCatch
    simp only [hinner, hman, Bool.not_false, Bool.and_true, if_true]
    cases u.listByDateRange (p.created - 86400 * 30) (p.created + 86400 * 1) 100 with
    | ok allTransactions =>
      exact ⟨allTransactions.data.filter (fun tx => tx.payout == some payoutId), rfl⟩
    | err _ => exact ⟨[], rfl⟩

/-- C10, witness: a manual payout whose window scan returns the full
100-cap page flagged `has_more=true` upstream still answers
`has_more=false`. -/
theorem C10_scan_paths_report_has_more_false_witness :
    txFetchPhase defaultConfig "po_m" manualPayout none none none
      { retrievePayout := .ok manualPayout,
        listByPayout := fun _ => .err timeoutErr,
        listByDateRange := fun _ _ _ => .ok { data := [refTx1], has_more := true } }
      = .json [refTx1] false :=
  (C10_scan_paths_report_has_more_false.1 defaultConfig "po_m" manualPayout
    none none none
    { retrievePayout := .ok manualPayout,
      listByPayout := fun _ => .err timeoutErr,
      listByDateRange := fun _ _ _ => .ok { data := [refTx1], has_more := true } }
    { data := [refTx1], has_more := true } rfl rfl).trans (by decide)

/-! ### C7 — cache key and parameter ordering -/

theorem lookupParam_eq_none_of_not_mem (k : String) (l : List (String × String))
    (h : k ∉ l.map Prod.fst) : lookupParam k l = none := by
  induction l with
  | nil => rfl
  | cons kv rest ih =>
    obtain ⟨k', v⟩ := kv
    simp only [List.map_cons, List.mem_cons] at h
    push_neg at h
    have hne : (k' == k) = false :=
      beq_eq_false_iff_ne.mpr (fun hh => h.1 hh.symm)
    simp only [lookupParam, hne, Bool.false_eq_true, if_false]
    exact ih h.2

theorem params_ext (ps qs : List (String × String))
    (hnd : (ps.map Prod.fst).Nodup)
    (hkeys : ps.map Prod.fst = qs.map Prod.fst)
    (hvals : ∀ k, lookupParam k ps = lookupParam k qs) : ps = qs := by
  induction ps generalizing qs with
  | nil =>
    cases qs with
    | nil => rfl
    | cons q qs' => simp at hkeys
  | cons p ps' ih =>
    cases qs with
    | nil => simp at hkeys
    | cons q qs' =>
      obtain ⟨k, v⟩ := p
      obtain ⟨k', v'⟩ := q
      simp only [List.map_cons, List.cons.injEq] at hkeys
      obtain ⟨hk, htl⟩ := hkeys
      subst hk
      have hv : v = v' := by
        have hh := hvals k
        simpa [lookupParam] using hh
      subst hv
      simp only [List.map_cons, List.nodup_cons] at hnd
      have hknotin : k ∉ ps'.map Prod.fst := hnd.1
      have hknotin' : k ∉ qs'.map Prod.fst := htl ▸ hknotin
      have htail : ∀ k0, lookupParam k0 ps' = lookupParam k0 qs' := by
        intro k0
        by_cases hk0 : k0 = k
        · subst hk0
          rw [lookupParam_eq_none_of_not_mem _ _ hknotin,
            lookupParam_eq_none_of_not_mem _ _ hknotin']
        · have hh := hvals k0
          have hne : (k == k0) = false :=
            beq_eq_false_iff_ne.mpr (fun hh2 => hk0 hh2.symm)
          simpa [lookupParam, hne] using hh
      rw [ih qs' hnd.2 htl htail]

/-- C7, counterexample to the claim as stated: the two query-parameter
lists present the same key→value mapping (they are permutations of each
other, with distinct keys), yet `buildCacheKey` — which serializes with
`JSON.stringify` in object-key insertion order — produces different
cache keys for them, so the two requests address different cache
entries. -/
theorem C7_key_order_counterexample :
    ([("limit", "10"), ("offset", "5")] : List (String × String)).Perm
      [("offset", "5"), ("limit", "10")] ∧
    lookupParam "limit" [("limit", "10"), ("offset", "5")]
      = lookupParam "limit" [("offset", "5"), ("limit", "10")] ∧
    lookupParam "offset" [("limit", "10"), ("offset", "5")]
      = lookupParam "offset" [("offset", "5"), ("limit", "10")] ∧
    buildCacheKey "acme" "/api/payouts" [("limit", "10"), ("offset", "5")]
      ≠ buildCacheKey "acme" "/api/payouts" [("offset", "5"), ("limit", "10")] := by
  refine ⟨by decide, by decide, by decide, by decide⟩

/-- C7 (amended): the cache key is determined by the tenant, the route,
and the parameter list taken in order — two requests whose parameter
lists present their (distinct) keys in the same order with the same
value under every key hash identically; permuting the key order can
change the key, as the counterexample shows. -/
theorem C7_same_order_same_mapping_same_key (tenantId path : String)
    (ps qs : List (String × String))
    (hnd : (ps.map Prod.fst).Nodup)
    (hkeys : ps.map Prod.fst = qs.map Prod.fst)
    (hvals : ∀ k, lookupParam k ps = lookupParam k qs) :
    buildCacheKey tenantId path ps = buildCacheKey tenantId path qs := by
  rw [params_ext ps qs hnd hkeys hvals]

/-- C7, witness: the amended theorem applied at a concrete parameter
list. -/
theorem C7_same_order_same_mapping_same_key_witness :
    buildCacheKey "acme" "/api/payouts" [("limit", "10"), ("offset", "5")]
      = buildCacheKey "acme" "/api/payouts" [("limit", "10"), ("offset", "5")] :=
  C7_same_order_same_mapping_same_key "acme" "/api/payouts"
    [("limit", "10"), ("offset", "5")] [("limit", "10"), ("offset", "5")]
    (by decide) rfl (fun _ => rfl)

/-! ### C8 — cache TTL semantics -/

theorem lookupEntry_filter_self {α : Type} (store : List (String × CacheEntry α))
    (key : String) :
    lookupEntry (store.filter (fun kv => kv.1 != key)) key = none := by
  induction store with
  | nil => rfl
  | cons kv rest ih =>
    obtain ⟨k, e⟩ := kv
    by_cases h : k = key
    · subst h
      simpa using ih
    · simp only [List.filter_cons]
      have hne : (k != key) = true := by simpa using h
      simp only [hne, if_true]
      have hne2 : (k == key) = false := by simpa using h
      simp only [lookupEntry, hne2, Bool.false_eq_true, if_false]
      exact ih

theorem lookupEntry_setEntry_self {α : Type} (store : List (String × CacheEntry α))
    (key : String) (e : CacheEntry α) :
    lookupEntry (setEntry store key e) key = some e := by
  induction store with
  | nil => simp [setEntry, lookupEntry]
  | cons kv rest ih =>
    obtain ⟨k, old⟩ := kv
    by_cases h : k = key
    · subst h
      simp [setEntry, lookupEntry]
    · have hne : (k == key) = false := by simpa using h
      simp only [setEntry, hne, Bool.false_eq_true, if_false]
      simp only [lookupEntry, hne, Bool.false_eq_true, if_false]
      exact ih

theorem cache_get_expired {α : Type} (c : InMemoryCache α) (key : String)
    (entry : CacheEntry α) (ea now : Int)
    (hl : lookupEntry c.store key = some entry) (he : entry.expiresAt = some ea)
    (h0 : ea ≠ 0) (hlt : ea < now) :
    c.get key now = (none, ⟨c.store.filter (fun kv => kv.1 != key)⟩) := by
  have hcond : (ea != 0 && decide (ea < now)) = true := by
    simp [h0, hlt]
  simp [InMemoryCache.get, hl, he, hcond]

/-- C8: cache TTL semantics. First conjunct: a `get` performed after an
entry's truthy `expiresAt` (strictly past it) returns absent and removes
the entry from the store (lazy eviction). Second conjunct: a `set` with
`ttlSeconds` equal to 0 or absent stores a non-expiring entry — a later
`get` at any time still returns the value. Third conjunct: an expired
entry under a listing query's own cache key is treated as absent and the
query takes the fresh upstream-fetch path (`cached=false, stale=false`). -/
theorem C8_cache_ttl_semantics :
    (∀ (α : Type) (c : InMemoryCache α) (key : String) (entry : CacheEntry α)
        (ea now : Int),
      lookupEntry c.store key = some entry → entry.expiresAt = some ea →
      ea ≠ 0 → ea < now →
      (c.get key now).1 = none ∧ lookupEntry (c.get key now).2.store key = none) ∧
    (∀ (α : Type) (c : InMemoryCache α) (key : String) (v : α) (ttl : Option Int)
        (now now2 : Int),
      ttl = some 0 ∨ ttl = none →
      ((c.set key v ttl now).get key now2).1 = some v) ∧
    (∀ (cfg : ServiceConfig) (tenantIdHeader : String) (q : ListQuery)
        (rawParams : List (String × String)) (c : InMemoryCache PayoutsPayload)
        (now ea : Int) (entry : CacheEntry PayoutsPayload) (page : PayoutsPage)
        (upstream : PayoutListParams → UpstreamResult PayoutsPage),
      q.refresh = false →
      lookupEntry c.store (buildCacheKey tenantIdHeader "/api/payouts" rawParams)
        = some entry →
      entry.expiresAt = some ea → ea ≠ 0 → ea < now →
      upstream (buildListParams q) = .ok page →
      (listPayouts cfg tenantIdHeader q rawParams c now upstream).1.cached = false ∧
      (listPayouts cfg tenantIdHeader q rawParams c now upstream).1.stale = false) := by
  refine ⟨?_, ?_, ?_⟩
  · intro α c key entry ea now hl he h0 hlt
    rw [cache_get_expired c key entry ea now hl he h0 hlt]
    exact ⟨rfl, lookupEntry_filter_self c.store key⟩
  · intro α c key v ttl now now2 httl
    have hset : (c.set key v ttl now).store = setEntry c.store key ⟨v, none⟩ := by
      rcases httl with h | h <;> subst h <;> simp [InMemoryCache.set]
    unfold InMemoryCache.get
    rw [hset, lookupEntry_setEntry_self]
  · intro cfg tenantIdHeader q rawParams c now ea entry page upstream
      hrefresh hl he h0 hlt hup
    have hsplit : cacheLookup q c
        (buildCacheKey tenantIdHeader "/api/payouts" rawParams) now
        = (none, ⟨c.store.filter
            (fun kv => kv.1 != buildCacheKey tenantIdHeader "/api/payouts" rawParams)⟩) := by
      unfold cacheLookup
      rw [hrefresh]
      simpa using cache_get_expired c _ entry ea now hl he h0 hlt
    simp [listPayouts, hsplit, hup]

/-- C8, witness: a value stored with TTL 60 seconds at time 0 is absent
(and evicted) when requested at time 120000 ms. -/
theorem C8_cache_ttl_semantics_witness :
    ((InMemoryCache.mk [("k", ⟨(7 : Nat), some 60000⟩)]).get "k" 120000).1 = none :=
  (C8_cache_ttl_semantics.1 Nat (InMemoryCache.mk [("k", ⟨7, some 60000⟩)]) "k"
    ⟨7, some 60000⟩ 60000 120000 rfl rfl (by decide) (by decide)).1

/-! ### C9 — wildcard on absent or empty tenant -/

/-- C9: when the requesting tenant identifier is absent or normalizes to
empty (for example a whitespace-only value), tenant attribution matching
is a wildcard: the tenant guard of the listing filter accepts every
record whatever the `allowUnattributedPayouts` policy, and with no other
filters every record passes the whole filter — `listPayouts` applies no
tenant filter at all. Moreover the auth middleware's tenant check accepts
any non-empty header, including a whitespace-only one, so such requests
are admitted. -/
theorem C9_wildcard_on_absent_tenant :
    normalizeTenant none = none ∧
    normalizeTenant (some "") = none ∧
    normalizeTenant (some "   ") = none ∧
    (∀ (allow : Bool) (p : Payout), tenantGuard none allow p = true) ∧
    (∀ (allow : Bool) (p : Payout),
      payoutMatchesFilters none allow none none p = true) ∧
    tenantHeaderAccepted (some "   ") = true := by
  refine ⟨rfl, by decide, by decide, ?_, ?_, by decide⟩
  · intro allow p
    rfl
  · intro allow p
    simp [payoutMatchesFilters, tenantGuard]

end StripeService
